import Mathlib

/-!
# Slice-limit markers: `nvblox_ros/src/lib/visualization.cpp`

A shallow embedding of `toString` and `sliceLimitsToMarker`, followed by the
properties of the marker they build.

Conventions of the embedding

* `float` and `double` values are exact rationals (`ℚ`): rounding, overflow,
  infinities and NaN are outside the model.  Every literal of the source
  (`2.0f`, `0.0f`, `1.0`, `0.25`, `0.8`) is the rational it denotes.
* The range-based `for` loop over `vertices_PB_vec` is a left fold whose step
  is the loop body; `push_back` appends at the end of the list.
* Types that the source only includes (`Transform`, `Vector3f`,
  `SliceLimitMarkerType`, the ROS messages) are modelled below, each with a note
  saying where it comes from.
-/

namespace nvblox

/-! ## Types used by the source -/

/-- Eigen `Vector3f`: three scalar components. -/
structure Vector3f where
  x : ℚ
  y : ℚ
  z : ℚ
deriving DecidableEq

/-- Modelled from the spec: the type `Transform` is declared in
`nvblox/core/types.h`, which is not part of the sources.  The spec asks for a
rotation plus a translation that is applied to a 3D point by "standard
rotation-then-translation composition".  The nine entries `rij` are the linear
block (row `i`, column `j`), `tx ty tz` the translation.  No orthonormality is
imposed: the function accepts whatever the caller hands over. -/
structure Transform where
  r00 : ℚ
  r01 : ℚ
  r02 : ℚ
  r10 : ℚ
  r11 : ℚ
  r12 : ℚ
  r20 : ℚ
  r21 : ℚ
  r22 : ℚ
  tx : ℚ
  ty : ℚ
  tz : ℚ
deriving DecidableEq

/-- Modelled from the spec: the operator `Transform * Vector3f` (declared with
`Transform`, outside the sources): the linear block times the vector, plus the
translation. -/
def Transform.apply (T : Transform) (v : Vector3f) : Vector3f :=
  { x := T.r00 * v.x + T.r01 * v.y + T.r02 * v.z + T.tx
    y := T.r10 * v.x + T.r11 * v.y + T.r12 * v.z + T.ty
    z := T.r20 * v.x + T.r21 * v.y + T.r22 * v.z + T.tz }

instance : HMul Transform Vector3f Vector3f := ⟨Transform.apply⟩

/-- The identity transform: identity linear block, zero translation. -/
def Transform.identity : Transform :=
  { r00 := 1, r01 := 0, r02 := 0
    r10 := 0, r11 := 1, r12 := 0
    r20 := 0, r21 := 0, r22 := 1
    tx := 0, ty := 0, tz := 0 }

/-- Modelled from the spec: the enum `SliceLimitMarkerType` is declared in
`nvblox_ros/visualization.hpp`, which is not part of the sources.  It has the
two enumerators the source names; `kOther raw` stands for any value of the
underlying type that is neither of them (the `default:` arm of `toString`
exists for those). -/
inductive SliceLimitMarkerType where
  | kTopSliceLimit
  | kBottomSliceLimit
  | kOther (raw : Int)
deriving DecidableEq

/-- The type `rclcpp::Time`: an opaque time stamp, here its nanosecond count. -/
structure Time where
  nanoseconds : Int
deriving DecidableEq

/-- The message `std_msgs::msg::Header` (the fields the source writes);
default-constructed empty. -/
structure Header where
  frame_id : String := ""
  stamp : Time := ⟨0⟩
deriving DecidableEq

/-- The message `geometry_msgs::msg::Point`; default-constructed as zeros. -/
structure Point where
  x : ℚ := 0
  y : ℚ := 0
  z : ℚ := 0
deriving DecidableEq

/-- The message `geometry_msgs::msg::Vector3`; default-constructed as zeros. -/
structure Vector3 where
  x : ℚ := 0
  y : ℚ := 0
  z : ℚ := 0
deriving DecidableEq

/-- The message `std_msgs::msg::ColorRGBA`; default-constructed as zeros. -/
structure ColorRGBA where
  r : ℚ := 0
  g : ℚ := 0
  b : ℚ := 0
  a : ℚ := 0
deriving DecidableEq

/-- The constant `visualization_msgs::msg::Marker::TRIANGLE_LIST`. -/
def Marker_TRIANGLE_LIST : Int := 11

/-- The constant `visualization_msgs::msg::Marker::ADD`. -/
def Marker_ADD : Int := 0

/-- The message `visualization_msgs::msg::Marker`, restricted to the fields
that `sliceLimitsToMarker` writes.  The remaining fields of the message (pose,
lifetime, text, mesh data, ...) keep their default-constructed values on every
call and are left out.  A default-constructed marker has zero numbers, empty
strings and empty sequences. -/
structure Marker where
  header : Header := {}
  ns : String := ""
  id : Int := 0
  type : Int := 0
  action : Int := 0
  scale : Vector3 := {}
  color : ColorRGBA := {}
  points : List Point := []
  colors : List ColorRGBA := []
deriving DecidableEq

/-! ## The source functions -/

/-- Source lines 28-40: `toString`. -/
def toString (marker_type : SliceLimitMarkerType) : String :=
  match marker_type with
  | SliceLimitMarkerType.kTopSliceLimit => "top_slice_limit"
  | SliceLimitMarkerType.kBottomSliceLimit => "bottom_slice_limit"
  | _ => "unknown_type"

/-- Source lines 50-51: half of the side length. -/
def square_half_side_length_m (slice_visualization_side_length : ℚ) : ℚ :=
  slice_visualization_side_length / 2

/-- Source line 52: corner 0 in the plane-body frame. -/
def p0_PB (slice_visualization_side_length : ℚ) : Vector3f :=
  ⟨square_half_side_length_m slice_visualization_side_length,
    square_half_side_length_m slice_visualization_side_length, 0⟩

/-- Source line 53: corner 1 in the plane-body frame. -/
def p1_PB (slice_visualization_side_length : ℚ) : Vector3f :=
  ⟨-square_half_side_length_m slice_visualization_side_length,
    square_half_side_length_m slice_visualization_side_length, 0⟩

/-- Source line 54: corner 2 in the plane-body frame. -/
def p2_PB (slice_visualization_side_length : ℚ) : Vector3f :=
  ⟨square_half_side_length_m slice_visualization_side_length,
    -square_half_side_length_m slice_visualization_side_length, 0⟩

/-- Source line 55: corner 3 in the plane-body frame. -/
def p3_PB (slice_visualization_side_length : ℚ) : Vector3f :=
  ⟨-square_half_side_length_m slice_visualization_side_length,
    -square_half_side_length_m slice_visualization_side_length, 0⟩

/-- Source lines 58-59: the six triangle corners. -/
def vertices_PB_vec (slice_visualization_side_length : ℚ) : List Vector3f :=
  [p0_PB slice_visualization_side_length, p1_PB slice_visualization_side_length,
    p2_PB slice_visualization_side_length, p1_PB slice_visualization_side_length,
    p2_PB slice_visualization_side_length, p3_PB slice_visualization_side_length]

/-- Source lines 86-92: the colour message built for one vertex. -/
def vertexColor (slice_limit_type : SliceLimitMarkerType) : ColorRGBA :=
  let color_msg : ColorRGBA := {}
  let color_msg :=
    if slice_limit_type = SliceLimitMarkerType.kTopSliceLimit then
      { color_msg with r := 1 }
    else
      { color_msg with g := 1 }
  { color_msg with a := 4 / 5 }

/-- Source lines 75-93: one iteration of the loop over `vertices_PB_vec`. -/
def loopBody (T_G_PB : Transform) (height : ℚ) (slice_limit_type : SliceLimitMarkerType)
    (marker : Marker) (vertex_PB : Vector3f) : Marker :=
  let vertex_G : Vector3f := T_G_PB * vertex_PB
  let msg : Point := {}
  let msg := { msg with x := vertex_G.x }
  let msg := { msg with y := vertex_G.y }
  let msg := { msg with z := height }
  let marker := { marker with points := marker.points ++ [msg] }
  let color_msg := vertexColor slice_limit_type
  { marker with colors := marker.colors ++ [color_msg] }

/-- Source lines 42-97: `sliceLimitsToMarker`. -/
def sliceLimitsToMarker (T_G_PB : Transform) (slice_visualization_side_length : ℚ)
    (timestamp : Time) (global_frame_id : String) (height : ℚ)
    (slice_limit_type : SliceLimitMarkerType) : Marker :=
  let marker : Marker := {}
  let marker := { marker with header := { marker.header with frame_id := global_frame_id } }
  let marker := { marker with header := { marker.header with stamp := timestamp } }
  let marker := { marker with ns := toString slice_limit_type }
  let marker := { marker with id := 0 }
  let marker := { marker with type := Marker_TRIANGLE_LIST }
  let marker := { marker with action := Marker_ADD }
  let marker := { marker with scale := { marker.scale with x := 1 } }
  let marker := { marker with scale := { marker.scale with y := 1 } }
  let marker := { marker with scale := { marker.scale with z := 1 } }
  let marker := { marker with color := { marker.color with a := 1 / 4 } }
  (vertices_PB_vec slice_visualization_side_length).foldl
    (loopBody T_G_PB height slice_limit_type) marker

/-! ## Notions used to state the properties -/

/-- The four local corners by number. -/
def localCorner (s : ℚ) : Nat → Vector3f
  | 0 => p0_PB s
  | 1 => p1_PB s
  | 2 => p2_PB s
  | _ => p3_PB s

/-- The fixed index order of the triangle list. -/
def cornerOrder : List Nat := [0, 1, 2, 1, 2, 3]

/-- Squared Euclidean distance of two vectors. -/
def sqDist (p q : Vector3f) : ℚ :=
  (p.x - q.x) ^ 2 + (p.y - q.y) ^ 2 + (p.z - q.z) ^ 2

/-- Signed area (shoelace formula) of the triangle `a b c` projected on the
x-y plane: positive when `a b c` runs counter-clockwise. -/
def signedArea (a b c : Vector3f) : ℚ :=
  ((b.x - a.x) * (c.y - a.y) - (c.x - a.x) * (b.y - a.y)) / 2

/-- Area of the triangle `a b c` in the x-y plane. -/
def triangleArea (a b c : Vector3f) : ℚ :=
  |signedArea a b c|

/-- The closed triangle `a b c`: the points that are a convex combination of
the three corners. -/
def InTriangle (a b c p : Vector3f) : Prop :=
  ∃ u v w : ℚ, 0 ≤ u ∧ 0 ≤ v ∧ 0 ≤ w ∧ u + v + w = 1 ∧
    p.x = u * a.x + v * b.x + w * c.x ∧
    p.y = u * a.y + v * b.y + w * c.y ∧
    p.z = u * a.z + v * b.z + w * c.z

/-- The closed square of side `s` centred at the local origin, in the plane
`z = 0`. -/
def InSquare (s : ℚ) (p : Vector3f) : Prop :=
  |p.x| ≤ s / 2 ∧ |p.y| ≤ s / 2 ∧ p.z = 0

/-- The six points and six colours produced by the loop, written out. -/
theorem sliceLimitsToMarker_eq (T : Transform) (s : ℚ) (ts : Time) (f : String) (h : ℚ)
    (k : SliceLimitMarkerType) :
    sliceLimitsToMarker T s ts f h k =
      { header := { frame_id := f, stamp := ts }
        ns := toString k
        id := 0
        type := Marker_TRIANGLE_LIST
        action := Marker_ADD
        scale := { x := 1, y := 1, z := 1 }
        color := { r := 0, g := 0, b := 0, a := 1 / 4 }
        points := (vertices_PB_vec s).map fun v => { x := (T * v).x, y := (T * v).y, z := h }
        colors := (vertices_PB_vec s).map fun _ => vertexColor k } := by
  simp [sliceLimitsToMarker, vertices_PB_vec, loopBody, List.foldl]

/-- The product `T * v` is the application of `T` to `v`. -/
theorem Transform.mul_def (T : Transform) (v : Vector3f) : T * v = T.apply v := rfl

/-! ## Vertex positions -/

/-- C1: the x and y of the i-th output point (i = 0..5) are the x and y of `T`
applied to local corner number `idx[i]`, with `idx = [0,1,2,1,2,3]` and the
local corners `(s/2, s/2, 0)`, `(-s/2, s/2, 0)`, `(s/2, -s/2, 0)`,
`(-s/2, -s/2, 0)`; the height has no influence on x or y. -/
theorem sliceLimitsToMarker_points_xy (T : Transform) (s : ℚ) (ts : Time) (f : String)
    (h : ℚ) (k : SliceLimitMarkerType) :
    ((sliceLimitsToMarker T s ts f h k).points.map fun p => (p.x, p.y)) =
        (cornerOrder.map fun j => ((T * localCorner s j).x, (T * localCorner s j).y)) ∧
      cornerOrder = [0, 1, 2, 1, 2, 3] ∧
      localCorner s 0 = ⟨s / 2, s / 2, 0⟩ ∧
      localCorner s 1 = ⟨-(s / 2), s / 2, 0⟩ ∧
      localCorner s 2 = ⟨s / 2, -(s / 2), 0⟩ ∧
      localCorner s 3 = ⟨-(s / 2), -(s / 2), 0⟩ ∧
      ∀ h2 : ℚ,
        ((sliceLimitsToMarker T s ts f h2 k).points.map fun p => (p.x, p.y)) =
          ((sliceLimitsToMarker T s ts f h k).points.map fun p => (p.x, p.y)) := by
  refine ⟨?_, rfl, rfl, rfl, rfl, rfl, ?_⟩
  · simp [sliceLimitsToMarker_eq, vertices_PB_vec, cornerOrder, localCorner]
  · intro h2
    simp [sliceLimitsToMarker_eq, vertices_PB_vec]

/-- C2: every one of the six output points has z equal to the height `h`,
whatever the transform, the side length and the kind. -/
theorem sliceLimitsToMarker_points_z (T : Transform) (s : ℚ) (ts : Time) (f : String)
    (h : ℚ) (k : SliceLimitMarkerType) :
    ((sliceLimitsToMarker T s ts f h k).points.map fun p => p.z) = List.replicate 6 h := by
  simp [sliceLimitsToMarker_eq, vertices_PB_vec, List.replicate]

/-- C3: the marker has exactly 6 points and exactly 6 colours for every input,
so the two lists have equal length. -/
theorem sliceLimitsToMarker_lengths (T : Transform) (s : ℚ) (ts : Time) (f : String)
    (h : ℚ) (k : SliceLimitMarkerType) :
    (sliceLimitsToMarker T s ts f h k).points.length = 6 ∧
      (sliceLimitsToMarker T s ts f h k).colors.length = 6 ∧
      (sliceLimitsToMarker T s ts f h k).points.length =
        (sliceLimitsToMarker T s ts f h k).colors.length := by
  simp [sliceLimitsToMarker_eq, vertices_PB_vec]

/-- C4: for the identity transform the point list is
`[(a,a,h), (-a,a,h), (a,-a,h), (-a,a,h), (a,-a,h), (-a,-a,h)]` with `a = s/2`;
with `h = 0` each output vertex is its local corner, and with `s = 2`, `h = 5`
the list is `(1,1,5), (-1,1,5), (1,-1,5), (-1,1,5), (1,-1,5), (-1,-1,5)`. -/
theorem sliceLimitsToMarker_identity (s h : ℚ) (ts : Time) (f : String)
    (k : SliceLimitMarkerType) :
    (sliceLimitsToMarker Transform.identity s ts f h k).points =
        [⟨s / 2, s / 2, h⟩, ⟨-(s / 2), s / 2, h⟩, ⟨s / 2, -(s / 2), h⟩,
          ⟨-(s / 2), s / 2, h⟩, ⟨s / 2, -(s / 2), h⟩, ⟨-(s / 2), -(s / 2), h⟩] ∧
      (sliceLimitsToMarker Transform.identity s ts f 0 k).points =
        (cornerOrder.map fun j =>
          ⟨(localCorner s j).x, (localCorner s j).y, (localCorner s j).z⟩) ∧
      (sliceLimitsToMarker Transform.identity 2 ts f 5 k).points =
        [⟨1, 1, 5⟩, ⟨-1, 1, 5⟩, ⟨1, -1, 5⟩, ⟨-1, 1, 5⟩, ⟨1, -1, 5⟩, ⟨-1, -1, 5⟩] := by
  refine ⟨?_, ?_, ?_⟩
  · simp [sliceLimitsToMarker_eq, vertices_PB_vec, Transform.mul_def, Transform.apply,
      Transform.identity, p0_PB, p1_PB, p2_PB, p3_PB, square_half_side_length_m]
  · simp [sliceLimitsToMarker_eq, vertices_PB_vec, Transform.mul_def, Transform.apply,
      Transform.identity, p0_PB, p1_PB, p2_PB, p3_PB, cornerOrder, localCorner]
  · simp [sliceLimitsToMarker_eq, vertices_PB_vec, Transform.mul_def, Transform.apply,
      Transform.identity, p0_PB, p1_PB, p2_PB, p3_PB, square_half_side_length_m]

/-! ## Label and colours -/

/-- C5: `toString` is total; it gives "top_slice_limit" for `kTopSliceLimit`,
"bottom_slice_limit" for `kBottomSliceLimit` and "unknown_type" for every
other value, and the `ns` field of the marker is `toString` of the kind. -/
theorem toString_total (T : Transform) (s : ℚ) (ts : Time) (f : String) (h : ℚ)
    (k : SliceLimitMarkerType) :
    toString SliceLimitMarkerType.kTopSliceLimit = "top_slice_limit" ∧
      toString SliceLimitMarkerType.kBottomSliceLimit = "bottom_slice_limit" ∧
      (k ≠ SliceLimitMarkerType.kTopSliceLimit →
        k ≠ SliceLimitMarkerType.kBottomSliceLimit → toString k = "unknown_type") ∧
      (∃ label : String, toString k = label) ∧
      (sliceLimitsToMarker T s ts f h k).ns = toString k := by
  refine ⟨rfl, rfl, ?_, ⟨_, rfl⟩, ?_⟩
  · intro hTop hBottom
    cases k with
    | kTopSliceLimit => exact absurd rfl hTop
    | kBottomSliceLimit => exact absurd rfl hBottom
    | kOther raw => rfl
  · simp [sliceLimitsToMarker_eq]

/-- Witness of C5 at the identity transform and the unrecognized kind
`kOther 7`. -/
theorem toString_total_witness :
    toString (SliceLimitMarkerType.kOther 7) = "unknown_type" ∧
      (sliceLimitsToMarker Transform.identity 2 ⟨0⟩ "odom" 5
        (SliceLimitMarkerType.kOther 7)).ns = "unknown_type" :=
  ⟨(toString_total Transform.identity 2 ⟨0⟩ "odom" 5 (SliceLimitMarkerType.kOther 7)).2.2.1
      (by decide) (by decide),
    (toString_total Transform.identity 2 ⟨0⟩ "odom" 5
      (SliceLimitMarkerType.kOther 7)).2.2.2.2⟩

/-- C6: for `kTopSliceLimit` all six colours are red `(1, 0, 0, 0.8)`, for
`kBottomSliceLimit` all six are green `(0, 1, 0, 0.8)`; the two colours
differ, and within one marker the six colours are identical. -/
theorem sliceLimitsToMarker_colors (T : Transform) (s : ℚ) (ts : Time) (f : String)
    (h : ℚ) (k : SliceLimitMarkerType) :
    (sliceLimitsToMarker T s ts f h SliceLimitMarkerType.kTopSliceLimit).colors =
        List.replicate 6 ⟨1, 0, 0, 4 / 5⟩ ∧
      (sliceLimitsToMarker T s ts f h SliceLimitMarkerType.kBottomSliceLimit).colors =
        List.replicate 6 ⟨0, 1, 0, 4 / 5⟩ ∧
      (⟨1, 0, 0, 4 / 5⟩ : ColorRGBA) ≠ ⟨0, 1, 0, 4 / 5⟩ ∧
      ∃ c : ColorRGBA, (sliceLimitsToMarker T s ts f h k).colors = List.replicate 6 c := by
  refine ⟨?_, ?_, ?_, vertexColor k, ?_⟩
  · simp [sliceLimitsToMarker_eq, vertices_PB_vec, vertexColor, List.replicate]
  · simp [sliceLimitsToMarker_eq, vertices_PB_vec, vertexColor, List.replicate]
  · simp
  · simp [sliceLimitsToMarker_eq, vertices_PB_vec, List.replicate]

/-- C7, as stated, fails: for the unrecognized kind `kOther 2` the six colours
are exactly the six colours of a `kBottomSliceLimit` marker (green), so the
fallback colour is not distinct from the BOTTOM colour. -/
theorem fallback_color_counterexample :
    SliceLimitMarkerType.kOther 2 ≠ SliceLimitMarkerType.kTopSliceLimit ∧
      SliceLimitMarkerType.kOther 2 ≠ SliceLimitMarkerType.kBottomSliceLimit ∧
      (sliceLimitsToMarker Transform.identity 2 ⟨0⟩ "odom" 5
        (SliceLimitMarkerType.kOther 2)).colors = List.replicate 6 ⟨0, 1, 0, 4 / 5⟩ ∧
      (sliceLimitsToMarker Transform.identity 2 ⟨0⟩ "odom" 5
        (SliceLimitMarkerType.kOther 2)).colors =
        (sliceLimitsToMarker Transform.identity 2 ⟨0⟩ "odom" 5
          SliceLimitMarkerType.kBottomSliceLimit).colors := by
  refine ⟨by decide, by decide, ?_, ?_⟩
  · simp [sliceLimitsToMarker_eq, vertices_PB_vec, vertexColor, List.replicate]
  · simp [sliceLimitsToMarker_eq, vertices_PB_vec, vertexColor]

/-- C7, amended: for every kind that is neither `kTopSliceLimit` nor
`kBottomSliceLimit` the marker is built all the same (6 points, 6 colours), its
label is "unknown_type", which is neither recognized label, and its six
colours are the colour of the else-branch, green `(0, 1, 0, 0.8)`: the colour
of a BOTTOM surface, different from the colour of a TOP surface. -/
theorem fallback_color (T : Transform) (s : ℚ) (ts : Time) (f : String) (h : ℚ)
    (k : SliceLimitMarkerType) (hTop : k ≠ SliceLimitMarkerType.kTopSliceLimit)
    (hBottom : k ≠ SliceLimitMarkerType.kBottomSliceLimit) :
    (sliceLimitsToMarker T s ts f h k).points.length = 6 ∧
      (sliceLimitsToMarker T s ts f h k).colors = List.replicate 6 ⟨0, 1, 0, 4 / 5⟩ ∧
      (sliceLimitsToMarker T s ts f h k).colors =
        (sliceLimitsToMarker T s ts f h SliceLimitMarkerType.kBottomSliceLimit).colors ∧
      (sliceLimitsToMarker T s ts f h k).colors ≠
        (sliceLimitsToMarker T s ts f h SliceLimitMarkerType.kTopSliceLimit).colors ∧
      (sliceLimitsToMarker T s ts f h k).ns = "unknown_type" ∧
      (sliceLimitsToMarker T s ts f h k).ns ≠
        (sliceLimitsToMarker T s ts f h SliceLimitMarkerType.kTopSliceLimit).ns ∧
      (sliceLimitsToMarker T s ts f h k).ns ≠
        (sliceLimitsToMarker T s ts f h SliceLimitMarkerType.kBottomSliceLimit).ns := by
  cases k with
  | kTopSliceLimit => exact absurd rfl hTop
  | kBottomSliceLimit => exact absurd rfl hBottom
  | kOther raw =>
    refine ⟨?_, ?_, ?_, ?_, ?_, ?_, ?_⟩
    · simp [sliceLimitsToMarker_eq, vertices_PB_vec]
    · simp [sliceLimitsToMarker_eq, vertices_PB_vec, vertexColor, List.replicate]
    · simp [sliceLimitsToMarker_eq, vertices_PB_vec, vertexColor]
    · simp [sliceLimitsToMarker_eq, vertices_PB_vec, vertexColor]
    · simp [sliceLimitsToMarker_eq, toString]
    · simp only [sliceLimitsToMarker_eq, toString]
      decide
    · simp only [sliceLimitsToMarker_eq, toString]
      decide

/-- Witness of the amended C7 at the unrecognized kind `kOther 2`. -/
theorem fallback_color_witness :
    (sliceLimitsToMarker Transform.identity 2 ⟨0⟩ "odom" 5
        (SliceLimitMarkerType.kOther 2)).colors = List.replicate 6 ⟨0, 1, 0, 4 / 5⟩ ∧
      (sliceLimitsToMarker Transform.identity 2 ⟨0⟩ "odom" 5
        (SliceLimitMarkerType.kOther 2)).ns = "unknown_type" :=
  ⟨(fallback_color Transform.identity 2 ⟨0⟩ "odom" 5 (SliceLimitMarkerType.kOther 2)
      (by decide) (by decide)).2.1,
    (fallback_color Transform.identity 2 ⟨0⟩ "odom" 5 (SliceLimitMarkerType.kOther 2)
      (by decide) (by decide)).2.2.2.2.1⟩

/-! ## Dependence on the transform -/

/-- C8: two transforms with the same x and y translation and the same upper-left
2x2 block of the linear part give equal markers (same side length, height,
frame label, time stamp and kind); in particular replacing the z translation
by any value leaves the marker unchanged. -/
theorem sliceLimitsToMarker_planar_only (T1 T2 : Transform) (s : ℚ) (ts : Time)
    (f : String) (h : ℚ) (k : SliceLimitMarkerType)
    (h00 : T1.r00 = T2.r00) (h01 : T1.r01 = T2.r01)
    (h10 : T1.r10 = T2.r10) (h11 : T1.r11 = T2.r11)
    (hx : T1.tx = T2.tx) (hy : T1.ty = T2.ty) :
    sliceLimitsToMarker T1 s ts f h k = sliceLimitsToMarker T2 s ts f h k ∧
      ∀ z : ℚ, sliceLimitsToMarker { T1 with tz := z } s ts f h k =
        sliceLimitsToMarker T1 s ts f h k := by
  constructor
  · simp [sliceLimitsToMarker_eq, vertices_PB_vec, Transform.mul_def, Transform.apply,
      p0_PB, p1_PB, p2_PB, p3_PB, h00, h01, h10, h11, hx, hy]
  · intro z
    simp [sliceLimitsToMarker_eq, vertices_PB_vec, Transform.mul_def, Transform.apply]

/-- Witness of C8: the identity transform against a transform that agrees with
it on the planar entries only (other linear entries and the z translation
changed). -/
theorem sliceLimitsToMarker_planar_only_witness :
    sliceLimitsToMarker Transform.identity 2 ⟨0⟩ "odom" 5
        SliceLimitMarkerType.kTopSliceLimit =
      sliceLimitsToMarker
        { r00 := 1, r01 := 0, r02 := 3, r10 := 0, r11 := 1, r12 := -4,
          r20 := 5, r21 := 6, r22 := 7, tx := 0, ty := 0, tz := 9 }
        2 ⟨0⟩ "odom" 5 SliceLimitMarkerType.kTopSliceLimit :=
  (sliceLimitsToMarker_planar_only Transform.identity
    { r00 := 1, r01 := 0, r02 := 3, r10 := 0, r11 := 1, r12 := -4,
      r20 := 5, r21 := 6, r22 := 7, tx := 0, ty := 0, tz := 9 }
    2 ⟨0⟩ "odom" 5 SliceLimitMarkerType.kTopSliceLimit rfl rfl rfl rfl rfl rfl).1

/-! ## Local geometry -/

/-- C9: for positive `s` the four local corners form a square of side `s`
centred at the local origin: the four sides have squared length `s^2`, the two
diagonals `2 * s^2`, every corner has `z = 0`, and the corners sum to zero. -/
theorem local_corners_square (s : ℚ) (_hs : 0 < s) :
    sqDist (p0_PB s) (p1_PB s) = s ^ 2 ∧
      sqDist (p0_PB s) (p2_PB s) = s ^ 2 ∧
      sqDist (p1_PB s) (p3_PB s) = s ^ 2 ∧
      sqDist (p2_PB s) (p3_PB s) = s ^ 2 ∧
      sqDist (p0_PB s) (p3_PB s) = 2 * s ^ 2 ∧
      sqDist (p1_PB s) (p2_PB s) = 2 * s ^ 2 ∧
      ((p0_PB s).z = 0 ∧ (p1_PB s).z = 0 ∧ (p2_PB s).z = 0 ∧ (p3_PB s).z = 0) ∧
      (p0_PB s).x + (p1_PB s).x + (p2_PB s).x + (p3_PB s).x = 0 ∧
      (p0_PB s).y + (p1_PB s).y + (p2_PB s).y + (p3_PB s).y = 0 ∧
      (p0_PB s).z + (p1_PB s).z + (p2_PB s).z + (p3_PB s).z = 0 := by
  refine ⟨?_, ?_, ?_, ?_, ?_, ?_, ⟨rfl, rfl, rfl, rfl⟩, ?_, ?_, ?_⟩ <;>
    simp only [sqDist, p0_PB, p1_PB, p2_PB, p3_PB, square_half_side_length_m] <;> ring

/-- Witness of C9 at side length 2. -/
theorem local_corners_square_witness :
    sqDist (p0_PB 2) (p1_PB 2) = 2 ^ 2 ∧ sqDist (p0_PB 2) (p3_PB 2) = 2 * 2 ^ 2 :=
  ⟨(local_corners_square 2 (by norm_num)).1,
    (local_corners_square 2 (by norm_num)).2.2.2.2.1⟩

/-- C10: for positive `s` the two local triangles `(p0, p1, p2)` and
`(p1, p2, p3)` cover the square: every point of the plane `z = 0` with
`|x| ≤ s/2` and `|y| ≤ s/2` lies in one of the two closed triangles, each
triangle lies inside the square, each has area `s^2 / 2`, and the two areas
add up to `s^2`. -/
theorem triangles_cover_square (s : ℚ) (hs : 0 < s) :
    (∀ p : Vector3f, InSquare s p →
        InTriangle (p0_PB s) (p1_PB s) (p2_PB s) p ∨
          InTriangle (p1_PB s) (p2_PB s) (p3_PB s) p) ∧
      (∀ p : Vector3f, InTriangle (p0_PB s) (p1_PB s) (p2_PB s) p → InSquare s p) ∧
      (∀ p : Vector3f, InTriangle (p1_PB s) (p2_PB s) (p3_PB s) p → InSquare s p) ∧
      triangleArea (p0_PB s) (p1_PB s) (p2_PB s) = s ^ 2 / 2 ∧
      triangleArea (p1_PB s) (p2_PB s) (p3_PB s) = s ^ 2 / 2 ∧
      triangleArea (p0_PB s) (p1_PB s) (p2_PB s) +
        triangleArea (p1_PB s) (p2_PB s) (p3_PB s) = s ^ 2 := by
  have hs2 : (0 : ℚ) < s ^ 2 / 2 := by positivity
  have hA1 : triangleArea (p0_PB s) (p1_PB s) (p2_PB s) = s ^ 2 / 2 := by
    have e : signedArea (p0_PB s) (p1_PB s) (p2_PB s) = s ^ 2 / 2 := by
      simp only [signedArea, p0_PB, p1_PB, p2_PB, square_half_side_length_m]
      ring
    rw [triangleArea, e, abs_of_pos hs2]
  have hA2 : triangleArea (p1_PB s) (p2_PB s) (p3_PB s) = s ^ 2 / 2 := by
    have e : signedArea (p1_PB s) (p2_PB s) (p3_PB s) = -(s ^ 2 / 2) := by
      simp only [signedArea, p1_PB, p2_PB, p3_PB, square_half_side_length_m]
      ring
    rw [triangleArea, e, abs_neg, abs_of_pos hs2]
  refine ⟨?_, ?_, ?_, hA1, hA2, ?_⟩
  · rintro ⟨x, y, z⟩ ⟨hx, hy, hz⟩
    simp only at hx hy hz
    obtain ⟨hx1, hx2⟩ := abs_le.mp hx
    obtain ⟨hy1, hy2⟩ := abs_le.mp hy
    subst hz
    rcases le_total 0 (x + y) with hxy | hxy
    · left
      refine ⟨(x + y) / s, (s / 2 - x) / s, (s / 2 - y) / s, ?_, ?_, ?_, ?_, ?_, ?_, ?_⟩
      · exact div_nonneg hxy hs.le
      · exact div_nonneg (by linarith) hs.le
      · exact div_nonneg (by linarith) hs.le
      · field_simp
        ring
      · simp only [p0_PB, p1_PB, p2_PB, square_half_side_length_m]
        field_simp
        ring
      · simp only [p0_PB, p1_PB, p2_PB, square_half_side_length_m]
        field_simp
        ring
      · simp [p0_PB, p1_PB, p2_PB]
    · right
      refine ⟨(s / 2 + y) / s, (s / 2 + x) / s, -(x + y) / s, ?_, ?_, ?_, ?_, ?_, ?_, ?_⟩
      · exact div_nonneg (by linarith) hs.le
      · exact div_nonneg (by linarith) hs.le
      · exact div_nonneg (by linarith) hs.le
      · field_simp
        ring
      · simp only [p1_PB, p2_PB, p3_PB, square_half_side_length_m]
        field_simp
        ring
      · simp only [p1_PB, p2_PB, p3_PB, square_half_side_length_m]
        field_simp
        ring
      · simp [p1_PB, p2_PB, p3_PB]
  · rintro ⟨x, y, z⟩ ⟨u, v, w, hu, hv, hw, huvw, hx, hy, hz⟩
    simp only [p0_PB, p1_PB, p2_PB, square_half_side_length_m] at hx hy hz
    refine ⟨abs_le.mpr ⟨?_, ?_⟩, abs_le.mpr ⟨?_, ?_⟩, ?_⟩
    · show -(s / 2) ≤ x
      nlinarith [mul_nonneg hu hs.le, mul_nonneg hv hs.le, mul_nonneg hw hs.le]
    · show x ≤ s / 2
      nlinarith [mul_nonneg hu hs.le, mul_nonneg hv hs.le, mul_nonneg hw hs.le]
    · show -(s / 2) ≤ y
      nlinarith [mul_nonneg hu hs.le, mul_nonneg hv hs.le, mul_nonneg hw hs.le]
    · show y ≤ s / 2
      nlinarith [mul_nonneg hu hs.le, mul_nonneg hv hs.le, mul_nonneg hw hs.le]
    · show z = 0
      simpa using hz
  · rintro ⟨x, y, z⟩ ⟨u, v, w, hu, hv, hw, huvw, hx, hy, hz⟩
    simp only [p1_PB, p2_PB, p3_PB, square_half_side_length_m] at hx hy hz
    refine ⟨abs_le.mpr ⟨?_, ?_⟩, abs_le.mpr ⟨?_, ?_⟩, ?_⟩
    · show -(s / 2) ≤ x
      nlinarith [mul_nonneg hu hs.le, mul_nonneg hv hs.le, mul_nonneg hw hs.le]
    · show x ≤ s / 2
      nlinarith [mul_nonneg hu hs.le, mul_nonneg hv hs.le, mul_nonneg hw hs.le]
    · show -(s / 2) ≤ y
      nlinarith [mul_nonneg hu hs.le, mul_nonneg hv hs.le, mul_nonneg hw hs.le]
    · show y ≤ s / 2
      nlinarith [mul_nonneg hu hs.le, mul_nonneg hv hs.le, mul_nonneg hw hs.le]
    · show z = 0
      simpa using hz
  · rw [hA1, hA2]
    ring

/-- Witness of C10 at side length 2: the square's centre lies in one of the two
triangles and the two areas add up to 4. -/
theorem triangles_cover_square_witness :
    (InTriangle (p0_PB 2) (p1_PB 2) (p2_PB 2) ⟨0, 0, 0⟩ ∨
        InTriangle (p1_PB 2) (p2_PB 2) (p3_PB 2) ⟨0, 0, 0⟩) ∧
      triangleArea (p0_PB 2) (p1_PB 2) (p2_PB 2) +
        triangleArea (p1_PB 2) (p2_PB 2) (p3_PB 2) = 2 ^ 2 :=
  ⟨(triangles_cover_square 2 (by norm_num)).1 ⟨0, 0, 0⟩ (by norm_num [InSquare]),
    (triangles_cover_square 2 (by norm_num)).2.2.2.2.2⟩

/-! ## Metadata -/

/-- C11: the metadata of the marker: `header.frame_id` is the supplied frame
label, `header.stamp` the supplied time stamp, `id = 0`, `type = TRIANGLE_LIST`,
`action = ADD`, `scale = (1, 1, 1)` and the overall colour has alpha `0.25`;
none of these fields depends on the transform, the side length, the height or
the kind. -/
theorem sliceLimitsToMarker_metadata (T : Transform) (s : ℚ) (ts : Time) (f : String)
    (h : ℚ) (k : SliceLimitMarkerType) :
    (sliceLimitsToMarker T s ts f h k).header.frame_id = f ∧
      (sliceLimitsToMarker T s ts f h k).header.stamp = ts ∧
      (sliceLimitsToMarker T s ts f h k).id = 0 ∧
      (sliceLimitsToMarker T s ts f h k).type = Marker_TRIANGLE_LIST ∧
      (sliceLimitsToMarker T s ts f h k).action = Marker_ADD ∧
      (sliceLimitsToMarker T s ts f h k).scale = ⟨1, 1, 1⟩ ∧
      (sliceLimitsToMarker T s ts f h k).color.a = 1 / 4 ∧
      ∀ (T2 : Transform) (s2 h2 : ℚ) (k2 : SliceLimitMarkerType),
        (sliceLimitsToMarker T2 s2 ts f h2 k2).header =
            (sliceLimitsToMarker T s ts f h k).header ∧
          (sliceLimitsToMarker T2 s2 ts f h2 k2).id = (sliceLimitsToMarker T s ts f h k).id ∧
          (sliceLimitsToMarker T2 s2 ts f h2 k2).type =
            (sliceLimitsToMarker T s ts f h k).type ∧
          (sliceLimitsToMarker T2 s2 ts f h2 k2).action =
            (sliceLimitsToMarker T s ts f h k).action ∧
          (sliceLimitsToMarker T2 s2 ts f h2 k2).scale =
            (sliceLimitsToMarker T s ts f h k).scale ∧
          (sliceLimitsToMarker T2 s2 ts f h2 k2).color =
            (sliceLimitsToMarker T s ts f h k).color := by
  refine ⟨?_, ?_, ?_, ?_, ?_, ?_, ?_, ?_⟩
  · simp [sliceLimitsToMarker_eq]
  · simp [sliceLimitsToMarker_eq]
  · simp [sliceLimitsToMarker_eq]
  · simp [sliceLimitsToMarker_eq]
  · simp [sliceLimitsToMarker_eq]
  · simp [sliceLimitsToMarker_eq]
  · simp [sliceLimitsToMarker_eq]
  · intro T2 s2 h2 k2
    simp [sliceLimitsToMarker_eq]

/-! ## Non-positive side length -/

/-- C12: a non-positive side length does not make the function fail (the marker
still has 6 points and 6 colours), and for side length 0 the square is
degenerate: all six points are `(T.tx, T.ty, h)` and both local triangles have
zero area. -/
theorem sliceLimitsToMarker_degenerate (T : Transform) (s : ℚ) (ts : Time) (f : String)
    (h : ℚ) (k : SliceLimitMarkerType) (_hs : s ≤ 0) :
    (sliceLimitsToMarker T s ts f h k).points.length = 6 ∧
      (sliceLimitsToMarker T s ts f h k).colors.length = 6 ∧
      (sliceLimitsToMarker T 0 ts f h k).points = List.replicate 6 ⟨T.tx, T.ty, h⟩ ∧
      (sliceLimitsToMarker T 0 ts f h k).points.length = 6 ∧
      (sliceLimitsToMarker T 0 ts f h k).colors.length = 6 ∧
      triangleArea (p0_PB 0) (p1_PB 0) (p2_PB 0) = 0 ∧
      triangleArea (p1_PB 0) (p2_PB 0) (p3_PB 0) = 0 := by
  refine ⟨?_, ?_, ?_, ?_, ?_, ?_, ?_⟩
  · simp [sliceLimitsToMarker_eq, vertices_PB_vec]
  · simp [sliceLimitsToMarker_eq, vertices_PB_vec]
  · simp [sliceLimitsToMarker_eq, vertices_PB_vec, Transform.mul_def, Transform.apply,
      p0_PB, p1_PB, p2_PB, p3_PB, square_half_side_length_m, List.replicate]
  · simp [sliceLimitsToMarker_eq, vertices_PB_vec]
  · simp [sliceLimitsToMarker_eq, vertices_PB_vec]
  · simp [triangleArea, signedArea, p0_PB, p1_PB, p2_PB, square_half_side_length_m]
  · simp [triangleArea, signedArea, p1_PB, p2_PB, p3_PB, square_half_side_length_m]

/-- Witness of C12 at the negative side length `-2` and at side length 0, for a
transform with a non-trivial linear block and translation `(7, 8, 9)`. -/
theorem sliceLimitsToMarker_degenerate_witness :
    (sliceLimitsToMarker
        { r00 := 0, r01 := -1, r02 := 3, r10 := 1, r11 := 0, r12 := -4,
          r20 := 5, r21 := 6, r22 := 1, tx := 7, ty := 8, tz := 9 }
        (-2) ⟨0⟩ "odom" 5 SliceLimitMarkerType.kTopSliceLimit).points.length = 6 ∧
      (sliceLimitsToMarker
        { r00 := 0, r01 := -1, r02 := 3, r10 := 1, r11 := 0, r12 := -4,
          r20 := 5, r21 := 6, r22 := 1, tx := 7, ty := 8, tz := 9 }
        0 ⟨0⟩ "odom" 5 SliceLimitMarkerType.kTopSliceLimit).points =
        List.replicate 6 ⟨7, 8, 5⟩ :=
  ⟨(sliceLimitsToMarker_degenerate
      { r00 := 0, r01 := -1, r02 := 3, r10 := 1, r11 := 0, r12 := -4,
        r20 := 5, r21 := 6, r22 := 1, tx := 7, ty := 8, tz := 9 }
      (-2) ⟨0⟩ "odom" 5 SliceLimitMarkerType.kTopSliceLimit (by norm_num)).1,
    (sliceLimitsToMarker_degenerate
      { r00 := 0, r01 := -1, r02 := 3, r10 := 1, r11 := 0, r12 := -4,
        r20 := 5, r21 := 6, r22 := 1, tx := 7, ty := 8, tz := 9 }
      (-2) ⟨0⟩ "odom" 5 SliceLimitMarkerType.kTopSliceLimit (by norm_num)).2.2.1⟩

/-- C13: negating the side length reverses the point list (corner 0 and
corner 3 swap, corner 1 and corner 2 swap, the order `[0,1,2,1,2,3]` becomes
`[3,2,1,2,1,0]`), while the colours and the metadata stay the same. -/
theorem sliceLimitsToMarker_neg_side (T : Transform) (s : ℚ) (ts : Time) (f : String)
    (h : ℚ) (k : SliceLimitMarkerType) :
    (sliceLimitsToMarker T (-s) ts f h k).points =
        (sliceLimitsToMarker T s ts f h k).points.reverse ∧
      (p0_PB (-s) = p3_PB s ∧ p3_PB (-s) = p0_PB s ∧
        p1_PB (-s) = p2_PB s ∧ p2_PB (-s) = p1_PB s) ∧
      cornerOrder.reverse = [3, 2, 1, 2, 1, 0] ∧
      (sliceLimitsToMarker T (-s) ts f h k).points =
        (cornerOrder.reverse.map fun j =>
          ⟨(T * localCorner s j).x, (T * localCorner s j).y, h⟩) ∧
      (sliceLimitsToMarker T (-s) ts f h k).colors =
        (sliceLimitsToMarker T s ts f h k).colors ∧
      (sliceLimitsToMarker T (-s) ts f h k).header =
        (sliceLimitsToMarker T s ts f h k).header ∧
      (sliceLimitsToMarker T (-s) ts f h k).ns = (sliceLimitsToMarker T s ts f h k).ns ∧
      (sliceLimitsToMarker T (-s) ts f h k).id = (sliceLimitsToMarker T s ts f h k).id ∧
      (sliceLimitsToMarker T (-s) ts f h k).type = (sliceLimitsToMarker T s ts f h k).type ∧
      (sliceLimitsToMarker T (-s) ts f h k).action =
        (sliceLimitsToMarker T s ts f h k).action ∧
      (sliceLimitsToMarker T (-s) ts f h k).scale =
        (sliceLimitsToMarker T s ts f h k).scale ∧
      (sliceLimitsToMarker T (-s) ts f h k).color =
        (sliceLimitsToMarker T s ts f h k).color := by
  have e03 : p0_PB (-s) = p3_PB s := by
    simp [p0_PB, p3_PB, square_half_side_length_m, neg_div]
  have e30 : p3_PB (-s) = p0_PB s := by
    simp [p0_PB, p3_PB, square_half_side_length_m, neg_div]
  have e12 : p1_PB (-s) = p2_PB s := by
    simp [p1_PB, p2_PB, square_half_side_length_m, neg_div]
  have e21 : p2_PB (-s) = p1_PB s := by
    simp [p1_PB, p2_PB, square_half_side_length_m, neg_div]
  refine ⟨?_, ⟨e03, e30, e12, e21⟩, by decide, ?_, ?_, ?_, ?_, ?_, ?_, ?_, ?_, ?_⟩
  · simp [sliceLimitsToMarker_eq, vertices_PB_vec, e03, e30, e12, e21]
  · simp [sliceLimitsToMarker_eq, vertices_PB_vec, e03, e30, e12, e21, cornerOrder,
      localCorner]
  · simp [sliceLimitsToMarker_eq, vertices_PB_vec]
  · simp [sliceLimitsToMarker_eq]
  · simp [sliceLimitsToMarker_eq]
  · simp [sliceLimitsToMarker_eq]
  · simp [sliceLimitsToMarker_eq]
  · simp [sliceLimitsToMarker_eq]
  · simp [sliceLimitsToMarker_eq]
  · simp [sliceLimitsToMarker_eq]

/-! ## Winding and rotated squares -/

end nvblox
